import Mathlib

/-!
A verification development for a small halo2-style circuit repository
containing two example circuits: an iterated Fibonacci sequence
(`src/fibo1.rs`) and the cubic relation `x^3 + x + 5 = 35`
(`src/function.rs`).  The circuits are shallowly embedded below; the
constraint-authoring framework they are built on (columns, selectors,
gates, regions, the simple floor planner, and the mock verifier) is not
part of the repository's sources, so it is modelled from the
specification's description of those components.
-/

set_option maxRecDepth 4000

/-- The order of the Pallas base field, the scalar type `Fp` used by both
example circuits. -/
def pastaP : Nat := 28948022309329048855892746252171976963363056481941560715954676764349967630337

/-- The circuits' field of scalars. -/
abbrev F : Type := ZMod pastaP

instance : NeZero pastaP := ⟨by decide⟩

/-- A possibly-unknown scalar (`Value<F>` in the source): values are
present in witness-generation mode and absent in key-generation mode. -/
abbrev Value (α : Type) : Type := Option α

/-- Rust `Value::known`. -/
def Value.known {α : Type} (a : α) : Value α := some a

/-- Rust `Value::and_then`. -/
def Value.andThen {α β : Type} (v : Value α) (f : α → Value β) : Value β :=
  Option.bind v f

/-- Rust `Value::map`. -/
def Value.vmap {α β : Type} (v : Value α) (f : α → β) : Value β :=
  Option.map f v

/-- A grid cell: an (advice-column index, absolute row) pair. -/
structure Cell where
  col : Nat
  row : Nat
deriving DecidableEq, Repr

/-- An `AssignedCell`: a handle to an already-written cell together with
its (possibly unknown) value. -/
structure AssignedCell where
  cell : Cell
  value : Value F
deriving Repr

/-- Symbolic polynomial expressions over cell queries and selectors, the
tagged tree the spec's expression algebra describes.  Rotations are kept
as integers and read modulo the row count at evaluation time. -/
inductive Expr where
  | constant : F → Expr
  | sel : Nat → Expr
  | advice : Nat → Int → Expr
  | neg : Expr → Expr
  | sum : Expr → Expr → Expr
  | product : Expr → Expr → Expr
  | scaled : Expr → F → Expr
deriving DecidableEq

instance : Add Expr := ⟨Expr.sum⟩
instance : Sub Expr := ⟨fun a b => Expr.sum a (Expr.neg b)⟩
instance : Mul Expr := ⟨Expr.product⟩

/-- Rust `Rotation::cur()`. -/
def rotationCur : Int := 0

/-- Modelled from the spec: the constraint system accumulated during the
one-shot `configure` phase (the builder of columns, selectors, gates and
the equality-enabled column set); the halo2 `ConstraintSystem` type is
external to the repository. -/
structure CS where
  numAdvice : Nat
  numSelectors : Nat
  eqEnabled : List Nat
  gates : List (String × List Expr)
deriving DecidableEq

def CS.empty : CS := ⟨0, 0, [], []⟩

/-- Builder `meta.advice_column()`: returns a fresh advice column index. -/
def CS.advice_column (m : CS) : CS × Nat :=
  ({ m with numAdvice := m.numAdvice + 1 }, m.numAdvice)

/-- Builder `meta.selector()`: returns a fresh selector index. -/
def CS.newSelector (m : CS) : CS × Nat :=
  ({ m with numSelectors := m.numSelectors + 1 }, m.numSelectors)

/-- Builder `meta.enable_equality(col)`. -/
def CS.enable_equality (m : CS) (c : Nat) : CS :=
  { m with eqEnabled := m.eqEnabled ++ [c] }

/-- Builder `meta.create_gate(name, exprs)`: records the gate. -/
def CS.create_gate (m : CS) (name : String) (es : List Expr) : CS :=
  { m with gates := m.gates ++ [(name, es)] }

/-- Query `meta.query_selector(s)` inside a gate closure. -/
def querySelector (s : Nat) : Expr := Expr.sel s

/-- Query `meta.query_advice(col, rot)` inside a gate closure. -/
def queryAdvice (c : Nat) (rot : Int) : Expr := Expr.advice c rot

/-- Synthesis errors: running out of usable rows (the spec's BoundsError
during floor planning), and copying through a column that is not
equality-enabled (the spec's AssignmentError when invariant I1 is
violated). -/
inductive Err where
  | notEnoughRows
  | colNotEqEnabled
deriving DecidableEq, Repr

/-- Modelled from the spec: the state threaded through synthesis by the
layouter / simple floor planner (external to the repository): the
equality-enabled columns of the frozen constraint system, the dense
assignment table, the selector-enabled rows, the recorded copy
constraints, the per-region heights, and the next free row.  Every
region of both example circuits touches all advice columns, so the
simple floor planner places regions sequentially. -/
structure SynthState where
  usableRows : Nat
  eqEnabled : List Nat
  assignments : List (Cell × Value F)
  enabled : List (Nat × Nat)
  copies : List (Cell × Cell)
  regionHeights : List Nat
  curHeight : Nat
  nextRow : Nat
deriving DecidableEq

def SynthState.init (usable : Nat) (eqCols : List Nat) : SynthState :=
  ⟨usable, eqCols, [], [], [], [], 0, 0⟩

/-- Modelled from the spec: `selector.enable(region, offset)` marks
(selector, base+offset) active; the placement must stay inside the
usable rows. -/
def enableSelector (s : Nat) (base off : Nat) (st : SynthState) :
    Except Err SynthState :=
  if base + off < st.usableRows then
    .ok { st with enabled := st.enabled ++ [(s, base + off)],
                  curHeight := max st.curHeight (off + 1) }
  else .error .notEnoughRows

/-- Modelled from the spec: `region.assign_advice(annotation, col, off,
value)` writes the cell and returns an `AssignedCell`. -/
def assignAdvice (col off : Nat) (v : Value F) (base : Nat)
    (st : SynthState) : Except Err (SynthState × AssignedCell) :=
  if base + off < st.usableRows then
    let c : Cell := ⟨col, base + off⟩
    .ok ({ st with assignments := st.assignments ++ [(c, v)],
                   curHeight := max st.curHeight (off + 1) }, ⟨c, v⟩)
  else .error .notEnoughRows

/-- Modelled from the spec: `src.copy_advice(annotation, region, col,
off)` writes the source cell's value into (col, base+off) and records
the copy constraint between the two cells; it fails when invariant I1 is
violated, that is when either cell's column is not equality-enabled. -/
def copyAdvice (src : AssignedCell) (col off : Nat) (base : Nat)
    (st : SynthState) : Except Err (SynthState × AssignedCell) :=
  if base + off < st.usableRows then
    if src.cell.col ∈ st.eqEnabled ∧ col ∈ st.eqEnabled then
      let c : Cell := ⟨col, base + off⟩
      .ok ({ st with assignments := st.assignments ++ [(c, src.value)],
                     copies := st.copies ++ [(src.cell, c)],
                     curHeight := max st.curHeight (off + 1) }, ⟨c, src.value⟩)
    else .error .colNotEqEnabled
  else .error .notEnoughRows

/-- Modelled from the spec: `layouter.assign_region(body)` runs the body
at the next free base row and advances by the region's measured height
(the maximum offset touched plus one). -/
def assignRegion {α : Type} (body : Nat → SynthState → Except Err (SynthState × α))
    (st : SynthState) : Except Err (SynthState × α) :=
  match body st.nextRow { st with curHeight := 0 } with
  | .ok (st', a) =>
      .ok ({ st' with regionHeights := st'.regionHeights ++ [st'.curHeight],
                      nextRow := st.nextRow + st'.curHeight,
                      curHeight := 0 }, a)
  | .error e => .error e

/-! ## The Fibonacci circuit (`src/fibo1.rs`) -/

/-- Struct `FiboConfig`: three advice columns and one selector. -/
structure FiboConfig where
  advice0 : Nat
  advice1 : Nat
  advice2 : Nat
  sel : Nat
deriving DecidableEq, Repr

/-- Function `FiboChip::configure`: enables equality on the three advice columns
and creates the gate `s * (a + b - c)`. -/
def FiboChip.configure (m : CS) (colA colB colC : Nat) : CS × FiboConfig :=
  let (m, s) := m.newSelector
  let m := m.enable_equality colA
  let m := m.enable_equality colB
  let m := m.enable_equality colC
  let m := m.create_gate "add"
    (let s' := querySelector s
     let a := queryAdvice colA rotationCur
     let b := queryAdvice colB rotationCur
     let c := queryAdvice colC rotationCur
     [s' * (a + b - c)])
  (m, ⟨colA, colB, colC, s⟩)

/-- Function `FiboCircuit::configure`: creates three advice columns and delegates
to the chip. -/
def FiboCircuit.configure (m : CS) : CS × FiboConfig :=
  let (m, a0) := m.advice_column
  let (m, a1) := m.advice_column
  let (m, a2) := m.advice_column
  FiboChip.configure m a0 a1 a2

/-- Function `FiboChip::assign_first_row`: one region ("first row") enabling the
selector at offset 0 and writing a, b and c = a + b at offset 0. -/
def FiboChip.assign_first_row (cfg : FiboConfig) (a b : Value F)
    (st : SynthState) :
    Except Err (SynthState × (AssignedCell × AssignedCell × AssignedCell)) :=
  assignRegion (fun base st0 => do
    let st1 ← enableSelector cfg.sel base 0 st0
    let (st2, aCell) ← assignAdvice cfg.advice0 0 a base st1
    let (st3, bCell) ← assignAdvice cfg.advice1 0 b base st2
    let cVal := a.andThen (fun av => b.vmap (fun bv => av + bv))
    let (st4, cCell) ← assignAdvice cfg.advice2 0 cVal base st3
    .ok (st4, (aCell, bCell, cCell))) st

/-- Function `FiboChip::assign_row`: one region ("next row") enabling the selector,
copying the previous b and c cells into columns a and b, and writing
c = prev_b + prev_c. -/
def FiboChip.assign_row (cfg : FiboConfig) (prevB prevC : AssignedCell)
    (st : SynthState) : Except Err (SynthState × AssignedCell) :=
  assignRegion (fun base st0 => do
    let st1 ← enableSelector cfg.sel base 0 st0
    let (st2, _) ← copyAdvice prevB cfg.advice0 0 base st1
    let (st3, _) ← copyAdvice prevC cfg.advice1 0 base st2
    let cVal := prevB.value.andThen (fun bv => prevC.value.vmap (fun cv => bv + cv))
    let (st4, cCell) ← assignAdvice cfg.advice2 0 cVal base st3
    .ok (st4, cCell)) st

/-- Outcome of `FiboCircuit::synthesize`: an `Ok`, a returned `Err`, or a
panic (the source unwraps the first-row region's result). -/
inductive SynthOutcome where
  | ok : SynthState → SynthOutcome
  | err : Err → SynthOutcome
  | panicked : Err → SynthOutcome
deriving DecidableEq

/-- The final state of a successful synthesis (the empty grid when
synthesis did not succeed); used to state the concrete scenarios. -/
def SynthOutcome.state : SynthOutcome → SynthState
  | .ok st => st
  | _ => SynthState.init 0 []

/-- The loop `for _i in 3..10` of `FiboCircuit::synthesize`, propagating
errors with `?`. -/
def fiboLoop (cfg : FiboConfig) :
    List Nat → AssignedCell → AssignedCell → SynthState → Except Err SynthState
  | [], _, _, st => .ok st
  | _ :: rest, prevB, prevC, st =>
    match FiboChip.assign_row cfg prevB prevC st with
    | .ok (st', cCell) => fiboLoop cfg rest prevC cCell st'
    | .error e => .error e

/-- Function `FiboCircuit::synthesize`: assigns the first row (unwrapping the
result, so a failure there panics), then iterates `3..10` assigning one
row per step with `?`-propagation. -/
def FiboCircuit.synthesize (a b : Value F) (cfg : FiboConfig)
    (st : SynthState) : SynthOutcome :=
  match FiboChip.assign_first_row cfg a b st with
  | .error e => .panicked e
  | .ok (st1, (_, prevB, prevC)) =>
    match fiboLoop cfg (List.range' 3 7) prevB prevC st1 with
    | .ok st2 => .ok st2
    | .error e => .err e

/-! ## The mock verifier (modelled from the spec) -/

/-- Modelled from the spec: the assignment table read as a total function;
unused cells default to zero, later writes win. -/
def lookupCell (asgn : List (Cell × Value F)) (c : Cell) : F :=
  asgn.foldl (fun acc p => if p.1 = c then p.2.getD 0 else acc) 0

/-- Modelled from the spec: evaluation of an expression at a row against
an assignment: selectors are 1 exactly on enabled rows, queries read the
assignment at `row + rot` modulo the row count. -/
def Expr.eval (rows : Nat) (en : List (Nat × Nat))
    (asgn : List (Cell × Value F)) (row : Nat) : Expr → F
  | .constant c => c
  | .sel s => if (s, row) ∈ en then 1 else 0
  | .advice c rot => lookupCell asgn ⟨c, (((row : Int) + rot).emod (rows : Int)).toNat⟩
  | .neg e => - Expr.eval rows en asgn row e
  | .sum e1 e2 => Expr.eval rows en asgn row e1 + Expr.eval rows en asgn row e2
  | .product e1 e2 => Expr.eval rows en asgn row e1 * Expr.eval rows en asgn row e2
  | .scaled e k => Expr.eval rows en asgn row e * k

/-- Mock-verifier failures (no instance columns are used by either
circuit, so no InstanceMismatch arises). -/
inductive VerifyFailure where
  | gateFailure (gate : String) (row : Nat)
  | permFailure (a b : Cell)
deriving DecidableEq, Repr

/-- Modelled from the spec: for each gate and each row in `0..2^k`,
evaluate every expression and flag any non-zero result. -/
def gateFailures (k : Nat) (m : CS) (st : SynthState) : List VerifyFailure :=
  m.gates.flatMap (fun g =>
    (List.range (2^k)).flatMap (fun r =>
      g.2.flatMap (fun e =>
        if e.eval (2^k) st.enabled st.assignments r = 0 then []
        else [.gateFailure g.1 r])))

/-- Modelled from the spec: flag every recorded copy constraint whose two
cells hold different values (for a total assignment this is equivalent to
checking uniformity of each equivalence class). -/
def permFailures (st : SynthState) : List VerifyFailure :=
  st.copies.flatMap (fun p =>
    if lookupCell st.assignments p.1 = lookupCell st.assignments p.2 then []
    else [.permFailure p.1 p.2])

/-- Modelled from the spec: the mock verifier accumulates all gate and
permutation failures; `assert_satisfied` succeeds iff the list is empty. -/
def mockVerify (k : Nat) (m : CS) (st : SynthState) : List VerifyFailure :=
  gateFailures k m st ++ permFailures st

/-- Modelled from the spec: the usable rows at parameter `k`: the grid has
`2^k` rows of which a minimum of 3 is reserved for blinding. -/
def usableRowsAt (k : Nat) : Nat := 2 ^ k - 3

/-- Run `MockProver::run(k, circuit, [])` for the Fibonacci circuit: configure
from an empty constraint system, then synthesize on a fresh grid. -/
def fiboRun (k : Nat) (a b : Value F) : CS × SynthOutcome :=
  let (m, cfg) := FiboCircuit.configure CS.empty
  (m, FiboCircuit.synthesize a b cfg
    (SynthState.init (usableRowsAt k) m.eqEnabled))

/-! ## The cubic-relation circuit (`src/function.rs`) -/

/-- Struct `SimpleFunctionConfig`: advice columns x, y, z and selectors `s_add`,
`s_mul`. -/
structure SimpleFunctionConfig where
  x : Nat
  y : Nat
  z : Nat
  s_add : Nat
  s_mul : Nat
deriving DecidableEq, Repr

/-- Function `SimpleFunctionChip::configure`: enables equality on the three advice
columns and creates the gates `s_add * (x + y - z)` and
`s_mul * (x * y - z)`. -/
def SimpleFunctionChip.configure (m : CS) (x y z : Nat) :
    CS × SimpleFunctionConfig :=
  let m := m.enable_equality x
  let m := m.enable_equality y
  let m := m.enable_equality z
  let (m, sAdd) := m.newSelector
  let m := m.create_gate "add"
    (let left := queryAdvice x rotationCur
     let right := queryAdvice y rotationCur
     let out := queryAdvice z rotationCur
     let s := querySelector sAdd
     [s * (left + right - out)])
  let (m, sMul) := m.newSelector
  let m := m.create_gate "mul"
    (let left := queryAdvice x rotationCur
     let right := queryAdvice y rotationCur
     let out := queryAdvice z rotationCur
     let s := querySelector sMul
     [s * (left * right - out)])
  (m, ⟨x, y, z, sAdd, sMul⟩)

/-- Function `SimpleFunctionChip::load_add`: one region ("add") enabling `s_add`
and writing x, y and z = x + y at offset 0. -/
def SimpleFunctionChip.load_add (cfg : SimpleFunctionConfig)
    (x y : Value F) (st : SynthState) :
    Except Err (SynthState × (AssignedCell × AssignedCell × AssignedCell)) :=
  assignRegion (fun base st0 => do
    let st1 ← enableSelector cfg.s_add base 0 st0
    let (st2, xCell) ← assignAdvice cfg.x 0 x base st1
    let (st3, yCell) ← assignAdvice cfg.y 0 y base st2
    let zVal := x.andThen (fun xv => y.vmap (fun yv => xv + yv))
    let (st4, zCell) ← assignAdvice cfg.z 0 zVal base st3
    .ok (st4, (xCell, yCell, zCell))) st

/-- Function `SimpleFunctionChip::load_mul`: one region ("mul") enabling `s_mul`
and writing x, y and z = x * y at offset 0. -/
def SimpleFunctionChip.load_mul (cfg : SimpleFunctionConfig)
    (x y : Value F) (st : SynthState) :
    Except Err (SynthState × (AssignedCell × AssignedCell × AssignedCell)) :=
  assignRegion (fun base st0 => do
    let st1 ← enableSelector cfg.s_mul base 0 st0
    let (st2, xCell) ← assignAdvice cfg.x 0 x base st1
    let (st3, yCell) ← assignAdvice cfg.y 0 y base st2
    let zVal := x.andThen (fun xv => y.vmap (fun yv => xv * yv))
    let (st4, zCell) ← assignAdvice cfg.z 0 zVal base st3
    .ok (st4, (xCell, yCell, zCell))) st

/-- Function `SimpleFunctionChip::load_assign`: one region ("equal") enabling
`s_add` and writing x, y = 0 and z = y-argument at offset 0, returning
the x cell. -/
def SimpleFunctionChip.load_assign (cfg : SimpleFunctionConfig)
    (x y : Value F) (st : SynthState) :
    Except Err (SynthState × AssignedCell) :=
  assignRegion (fun base st0 => do
    let st1 ← enableSelector cfg.s_add base 0 st0
    let (st2, xCell) ← assignAdvice cfg.x 0 x base st1
    let (st3, _) ← assignAdvice cfg.y 0 (Value.known 0) base st2
    let (st4, _) ← assignAdvice cfg.z 0 y base st3
    .ok (st4, xCell)) st

/-- Function `FunctionCircuit::configure`: creates advice columns x, y, z and
delegates to the chip. -/
def FunctionCircuit.configure (m : CS) : CS × SimpleFunctionConfig :=
  let (m, x) := m.advice_column
  let (m, y) := m.advice_column
  let (m, z) := m.advice_column
  SimpleFunctionChip.configure m x y z

/-- Function `FunctionCircuit::synthesize`: three mul regions computing x, x², x³,
two add regions computing x³+x and x³+x+5, and a final `load_assign`
region against the constant 35; every error propagates with `?`. -/
def FunctionCircuit.synthesize (xIn : Value F) (cfg : SimpleFunctionConfig)
    (st : SynthState) : Except Err SynthState := do
  let (st1, r1) ← SimpleFunctionChip.load_mul cfg xIn (Value.known 1) st
  let x := r1.2.2
  let (st2, r2) ← SimpleFunctionChip.load_mul cfg (x.value.vmap (fun v => v)) xIn st1
  let xSquare := r2.2.2
  let (st3, r3) ← SimpleFunctionChip.load_mul cfg (xSquare.value.vmap (fun v => v)) xIn st2
  let xCube := r3.2.2
  let (st4, r4) ← SimpleFunctionChip.load_add cfg (xCube.value.vmap (fun v => v)) xIn st3
  let tmp1 := r4.2.2
  let (st5, r5) ← SimpleFunctionChip.load_add cfg (tmp1.value.vmap (fun v => v)) (Value.known 5) st4
  let tmp2 := r5.2.2
  let (st6, _) ← SimpleFunctionChip.load_assign cfg (tmp2.value.vmap (fun v => v)) (Value.known 35) st5
  .ok st6

/-- Run `MockProver::run(k, circuit, [])` for the cubic-relation circuit. -/
def functionRun (k : Nat) (x : Value F) : CS × Except Err SynthState :=
  let (m, cfg) := FunctionCircuit.configure CS.empty
  (m, FunctionCircuit.synthesize x cfg
    (SynthState.init (usableRowsAt k) m.eqEnabled))

/-! ## The two `main` runs and derived objects -/

/-- The final state of a successful fallible synthesis (the empty grid
when it failed). -/
def exceptState : Except Err SynthState → SynthState
  | .ok st => st
  | .error _ => SynthState.init 0 []

/-- The run performed by `main` of `src/fibo1.rs`: k = 4, a = b = 1. -/
def fiboMain : CS × SynthOutcome := fiboRun 4 (Value.known 1) (Value.known 1)

/-- The assignment state produced by the Fibonacci `main` run. -/
def fiboMainState : SynthState := fiboMain.2.state

/-- The run performed by `main` of `src/function.rs`: k = 4, x = 3. -/
def functionMain : CS × Except Err SynthState := functionRun 4 (Value.known 3)

/-- The assignment state produced by the cubic-relation `main` run. -/
def functionMainState : SynthState := exceptState functionMain.2

/-- The cubic-relation run with the unsatisfying input x = 2. -/
def functionRunX2 : CS × Except Err SynthState := functionRun 4 (Value.known 2)

/-- The assignment state of the x = 2 cubic-relation run. -/
def functionX2State : SynthState := exceptState functionRunX2.2

/-- The configuration the cubic-relation circuit obtains from `configure`:
columns x = 0, y = 1, z = 2, selectors s_add = 0, s_mul = 1. -/
def functionConfig : SimpleFunctionConfig := (FunctionCircuit.configure CS.empty).2

/-- The expression of the cubic-relation circuit's "add" gate,
`s_add * (x + y - z)`, exactly as `configure` records it. -/
def functionAddGate : Expr :=
  Expr.product (Expr.sel functionConfig.s_add)
    (Expr.sum
      (Expr.sum (Expr.advice functionConfig.x 0) (Expr.advice functionConfig.y 0))
      (Expr.neg (Expr.advice functionConfig.z 0)))

/-! ## Helper lemmas about the assignment table -/

lemma lookupCell_append_self (l : List (Cell × Value F)) (c : Cell) (v : Value F) :
    lookupCell (l ++ [(c, v)]) c = v.getD 0 := by
  simp [lookupCell, List.foldl_append]

lemma lookupCell_append_ne (l : List (Cell × Value F)) (c c' : Cell) (v : Value F)
    (h : c' ≠ c) : lookupCell (l ++ [(c', v)]) c = lookupCell l c := by
  simp [lookupCell, List.foldl_append, h]

instance : DecidableEq (Except Err SynthState) := fun a b =>
  match a, b with
  | .ok x, .ok y =>
      if h : x = y then .isTrue (by rw [h]) else .isFalse (by simp [h])
  | .ok _, .error _ => .isFalse (by simp)
  | .error _, .ok _ => .isFalse (by simp)
  | .error e, .error e' =>
      if h : e = e' then .isTrue (by rw [h])
      else .isFalse (fun hc => h (Except.error.inj hc))

/-! ## Claim theorems -/

/-- Claim C1: for the Fibonacci circuit run with a = 1, b = 1, k = 4,
synthesis completes without error, the c cell of the last assigned row
(column 2, row 7; the next free row is 8) holds 55, and the mock
verifier reports no failure. -/
theorem fibo_main_satisfied :
    fiboMain.2 = SynthOutcome.ok fiboMainState ∧
    fiboMainState.nextRow = 8 ∧
    lookupCell fiboMainState.assignments ⟨2, 7⟩ = 55 ∧
    mockVerify 4 fiboMain.1 fiboMainState = [] := by decide

/-- Claim C2: for the cubic-relation circuit run with x = 3, k = 4, the
three mul regions produce 3, 9 and 27 in the z column (rows 0-2), the
two add regions produce 30 and 35 (rows 3-4), the final region enables
`s_add` on row 5 with y = 0 and z = 35, and the mock verifier reports no
failure. -/
theorem function_main_satisfied :
    functionMain.2 = Except.ok functionMainState ∧
    lookupCell functionMainState.assignments ⟨2, 0⟩ = 3 ∧
    lookupCell functionMainState.assignments ⟨2, 1⟩ = 9 ∧
    lookupCell functionMainState.assignments ⟨2, 2⟩ = 27 ∧
    lookupCell functionMainState.assignments ⟨2, 3⟩ = 30 ∧
    lookupCell functionMainState.assignments ⟨2, 4⟩ = 35 ∧
    (functionConfig.s_add, 5) ∈ functionMainState.enabled ∧
    lookupCell functionMainState.assignments ⟨1, 5⟩ = 0 ∧
    lookupCell functionMainState.assignments ⟨2, 5⟩ = 35 ∧
    mockVerify 4 functionMain.1 functionMainState = [] := by decide

/-- Claim C5: for the cubic-relation circuit run with x = 2, synthesis
succeeds and computes 2^3 + 2 + 5 = 15 (written in the last add region
and copied into the x cell of the final `load_assign` region at row 5),
and the mock verifier reports exactly one failure: a GateFailure of the
"add" gate at row 5, the row of the final equality assertion. -/
theorem function_x2_gate_failure :
    functionRunX2.2 = Except.ok functionX2State ∧
    lookupCell functionX2State.assignments ⟨2, 4⟩ = 15 ∧
    lookupCell functionX2State.assignments ⟨0, 5⟩ = 15 ∧
    mockVerify 4 functionRunX2.1 functionX2State =
      [VerifyFailure.gateFailure "add" 5] := by decide

/-- Claim C3: if the mock verifier reports no failure, then for every
gate, every row of the grid, and every selector whose value at that row
is 1, every expression of the gate evaluates to 0 under the recorded
assignment (the gate expressions carry their governing selector as a
factor, so they in fact vanish on every row). -/
theorem satisfied_gate_exprs_vanish (k : Nat) (m : CS) (st : SynthState)
    (h : mockVerify k m st = []) :
    ∀ g ∈ m.gates, ∀ r < 2 ^ k, ∀ s,
      Expr.eval (2 ^ k) st.enabled st.assignments r (Expr.sel s) = 1 →
      ∀ e ∈ g.2, Expr.eval (2 ^ k) st.enabled st.assignments r e = 0 := by
  intro g hg r hr _s _hs e he
  have h1 : gateFailures k m st = [] := (List.append_eq_nil.mp h).1
  simp only [gateFailures, List.flatMap_eq_nil_iff] at h1
  have h2 := h1 g hg r (List.mem_range.mpr hr) e he
  by_contra hne
  simp [hne] at h2

/-- Witness for C3: in the satisfied Fibonacci main run, the gate
expression s * (a + b - c) evaluates to 0 at the selector-enabled
row 0. -/
theorem satisfied_gate_exprs_vanish_witness :
    Expr.eval (2 ^ 4) fiboMainState.enabled fiboMainState.assignments 0
      (Expr.product (Expr.sel 0)
        (Expr.sum (Expr.sum (Expr.advice 0 0) (Expr.advice 1 0))
          (Expr.neg (Expr.advice 2 0)))) = 0 :=
  satisfied_gate_exprs_vanish 4 fiboMain.1 fiboMainState (by decide)
    ("add",
      [Expr.product (Expr.sel 0)
        (Expr.sum (Expr.sum (Expr.advice 0 0) (Expr.advice 1 0))
          (Expr.neg (Expr.advice 2 0)))])
    (by decide) 0 (by decide) 0 (by decide) _ (by decide)

/-- Claim C4: when both cells' columns are equality-enabled (invariant
I1), `copy_advice` writes the source cell's value into the destination
cell and records the copy constraint between the two cells, and it fails
when I1 is violated; consequently, in the Fibonacci main run every
non-first row's a cell equals the previous row's b cell and its b cell
equals the previous row's c cell, and every recorded copy constraint
relates two cells with equal values in the completed assignment. -/
theorem copy_advice_writes_and_constrains :
    (∀ (src : AssignedCell) (col off base : Nat) (st : SynthState),
      base + off < st.usableRows →
      src.cell.col ∈ st.eqEnabled → col ∈ st.eqEnabled →
      ∃ st' ac, copyAdvice src col off base st = .ok (st', ac) ∧
        ac.cell = ⟨col, base + off⟩ ∧ ac.value = src.value ∧
        lookupCell st'.assignments ⟨col, base + off⟩ = src.value.getD 0 ∧
        (src.cell, (⟨col, base + off⟩ : Cell)) ∈ st'.copies) ∧
    (∀ (src : AssignedCell) (col off base : Nat) (st : SynthState),
      base + off < st.usableRows →
      ¬ (src.cell.col ∈ st.eqEnabled ∧ col ∈ st.eqEnabled) →
      copyAdvice src col off base st = .error .colNotEqEnabled) ∧
    (∀ i < 8, 1 ≤ i →
      lookupCell fiboMainState.assignments ⟨0, i⟩ =
        lookupCell fiboMainState.assignments ⟨1, i - 1⟩ ∧
      lookupCell fiboMainState.assignments ⟨1, i⟩ =
        lookupCell fiboMainState.assignments ⟨2, i - 1⟩) ∧
    (∀ p ∈ fiboMainState.copies,
      lookupCell fiboMainState.assignments p.1 =
        lookupCell fiboMainState.assignments p.2) := by
  refine ⟨?_, ?_, by decide, by decide⟩
  · intro src col off base st h h1 h2
    refine ⟨{ st with
                assignments := st.assignments ++ [(⟨col, base + off⟩, src.value)],
                copies := st.copies ++ [(src.cell, ⟨col, base + off⟩)],
                curHeight := max st.curHeight (off + 1) },
            ⟨⟨col, base + off⟩, src.value⟩, ?_, rfl, rfl, ?_, ?_⟩
    · simp [copyAdvice, h, h1, h2]
    · exact lookupCell_append_self st.assignments ⟨col, base + off⟩ src.value
    · simp
  · intro src col off base st h hne
    simp [copyAdvice, h, hne]

/-- Witness for C4: a concrete `copy_advice` of the cell (2,0) holding 5
into column 1 at base row 0 of a fresh 5-row grid whose columns 1 and 2
are equality-enabled. -/
theorem copy_advice_writes_and_constrains_witness :
    ∃ st' ac,
      copyAdvice ⟨⟨2, 0⟩, Value.known 5⟩ 1 0 0 (SynthState.init 5 [1, 2]) =
        .ok (st', ac) ∧
      ac.cell = ⟨1, 0 + 0⟩ ∧ ac.value = Value.known 5 ∧
      lookupCell st'.assignments ⟨1, 0 + 0⟩ = (Value.known (5 : F)).getD 0 ∧
      ((⟨2, 0⟩ : Cell), (⟨1, 0 + 0⟩ : Cell)) ∈ st'.copies :=
  copy_advice_writes_and_constrains.1 ⟨⟨2, 0⟩, Value.known 5⟩ 1 0 0
    (SynthState.init 5 [1, 2]) (by decide) (by decide) (by decide)

/-- Claim C6: the cubic circuit's final equality check is encoded with the
add gate: `load_assign` enables `s_add` and writes y = 0 and z = target
on its row, so the recorded add constraint s * (x + y - z) is satisfied
on that row if and only if the x value equals the target. -/
theorem load_assign_forces_equality (xv t : F) (rows : Nat) (st0 : SynthState)
    (hcap : st0.nextRow < st0.usableRows) (hrows : st0.nextRow < rows) :
    ("add", [functionAddGate]) ∈ (FunctionCircuit.configure CS.empty).1.gates ∧
    ∃ st' ac,
      SimpleFunctionChip.load_assign functionConfig (Value.known xv)
          (Value.known t) st0 = .ok (st', ac) ∧
      (functionConfig.s_add, st0.nextRow) ∈ st'.enabled ∧
      lookupCell st'.assignments ⟨functionConfig.y, st0.nextRow⟩ = 0 ∧
      lookupCell st'.assignments ⟨functionConfig.z, st0.nextRow⟩ = t ∧
      lookupCell st'.assignments ⟨functionConfig.x, st0.nextRow⟩ = xv ∧
      (Expr.eval rows st'.enabled st'.assignments st0.nextRow functionAddGate = 0 ↔
        xv = t) := by
  refine ⟨by decide, ?_⟩
  have hcfg : functionConfig = ⟨0, 1, 2, 0, 1⟩ := rfl
  rw [hcfg]
  simp only [SimpleFunctionChip.load_assign, assignRegion, enableSelector,
    assignAdvice, Nat.add_zero, hcap, if_true, Bind.bind, Except.bind]
  refine ⟨_, _, rfl, ?_, ?_, ?_, ?_, ?_⟩
  · simp
  · rw [lookupCell_append_ne _ _ _ _ (by simp), lookupCell_append_self]
    rfl
  · rw [lookupCell_append_self]
    rfl
  · rw [lookupCell_append_ne _ _ _ _ (by simp),
      lookupCell_append_ne _ _ _ _ (by simp), lookupCell_append_self]
    rfl
  · have hrow : (((st0.nextRow : Int) + 0).emod (rows : Int)).toNat = st0.nextRow := by
      rw [Int.add_zero]
      show (((st0.nextRow : Int) % (rows : Int))).toNat = st0.nextRow
      rw [Int.emod_eq_of_lt (by positivity) (by exact_mod_cast hrows)]
      exact Int.toNat_natCast _
    simp only [functionAddGate, hcfg, Expr.eval, hrow]
    rw [lookupCell_append_ne _ _ _ _ (by simp),
      lookupCell_append_ne _ _ _ _ (by simp), lookupCell_append_self,
      lookupCell_append_ne _ _ _ _ (by simp), lookupCell_append_self,
      lookupCell_append_self]
    simp [Value.known, ← sub_eq_add_neg, sub_eq_zero]

/-- Witness for C6: the equality-check region on a fresh 13-row grid with
x value 3 and target 3. -/
theorem load_assign_forces_equality_witness :
    ("add", [functionAddGate]) ∈ (FunctionCircuit.configure CS.empty).1.gates ∧
    ∃ st' ac,
      SimpleFunctionChip.load_assign functionConfig (Value.known 3)
          (Value.known 3) (SynthState.init 13 [0, 1, 2]) = .ok (st', ac) ∧
      (functionConfig.s_add, (SynthState.init 13 [0, 1, 2]).nextRow) ∈ st'.enabled ∧
      lookupCell st'.assignments ⟨functionConfig.y, (SynthState.init 13 [0, 1, 2]).nextRow⟩ = 0 ∧
      lookupCell st'.assignments ⟨functionConfig.z, (SynthState.init 13 [0, 1, 2]).nextRow⟩ = 3 ∧
      lookupCell st'.assignments ⟨functionConfig.x, (SynthState.init 13 [0, 1, 2]).nextRow⟩ = 3 ∧
      (Expr.eval 16 st'.enabled st'.assignments (SynthState.init 13 [0, 1, 2]).nextRow
          functionAddGate = 0 ↔ (3 : F) = 3) :=
  load_assign_forces_equality 3 3 16 (SynthState.init 13 [0, 1, 2]) (by decide) (by decide)

/-- Claim C7 counterexample: at k = 0 the grid has no usable rows, so the
first-row region assignment fails; `FiboCircuit::synthesize` unwraps that
result and panics instead of returning the error to its caller. -/
theorem fibo_seed_failure_panics :
    (fiboRun 0 (Value.known 1) (Value.known 1)).2 =
      SynthOutcome.panicked Err.notEnoughRows ∧
    (fiboRun 0 (Value.known 1) (Value.known 1)).2 ≠
      SynthOutcome.err Err.notEnoughRows := by decide

/-- Claim C7 as amended: whenever a loop-region assignment (one of the
seven `3..10` iterations) of the Fibonacci circuit fails, `synthesize`
returns that error to its caller; only a failure of the unwrapped
first-row region panics.  With 1 ≤ usable rows < 8, the seed region fits
and some loop region fails, and the error is returned. -/
theorem fibo_loop_failure_returns_error (u : Nat) (h1 : 1 ≤ u) (h2 : u < 8)
    (a b : Value F) :
    FiboCircuit.synthesize a b (FiboCircuit.configure CS.empty).2
      (SynthState.init u (FiboCircuit.configure CS.empty).1.eqEnabled) =
      SynthOutcome.err Err.notEnoughRows := by
  interval_cases u <;> rfl

/-- Witness for the amended C7: three usable rows, inputs a = b = 1. -/
theorem fibo_loop_failure_returns_error_witness :
    FiboCircuit.synthesize (Value.known 1) (Value.known 1)
      (FiboCircuit.configure CS.empty).2
      (SynthState.init 3 (FiboCircuit.configure CS.empty).1.eqEnabled) =
      SynthOutcome.err Err.notEnoughRows :=
  fibo_loop_failure_returns_error 3 (by decide) (by decide)
    (Value.known 1) (Value.known 1)

/-- Claim C8 counterexample: the Fibonacci main run assigns 8 distinct
rows, not 9. -/
theorem fibo_not_nine_rows :
    (fiboMainState.assignments.map (fun p => p.1.row)).dedup.length = 8 ∧
    ¬ (fiboMainState.assignments.map (fun p => p.1.row)).dedup.length = 9 := by
  decide

/-- Claim C8 as amended: the seed region plus the seven iterations of
`3..10` produce 8 regions and 8 assigned rows in total, every one of
which is gate-active (the selector is enabled on each of rows 0-7). -/
theorem fibo_eight_rows_all_active :
    fiboMainState.regionHeights.length = 8 ∧
    (fiboMainState.assignments.map (fun p => p.1.row)).dedup = List.range 8 ∧
    fiboMainState.enabled.map Prod.snd = List.range 8 := by decide

/-- Claim C9: synthesis is deterministic: two runs on equal inputs (same
a, b for the Fibonacci circuit, same x for the cubic circuit, same k)
produce identical assignment tables, selector-enabled rows and copy
constraints; in this embedding synthesis is a pure function of its
inputs, mirroring the absence of any nondeterministic construct in the
source. -/
theorem synthesis_deterministic (k k' : Nat) (a b a' b' x x' : Value F)
    (hk : k = k') (ha : a = a') (hb : b = b') (hx : x = x') :
    (fiboRun k a b).2.state.assignments = (fiboRun k' a' b').2.state.assignments ∧
    (fiboRun k a b).2.state.enabled = (fiboRun k' a' b').2.state.enabled ∧
    (fiboRun k a b).2.state.copies = (fiboRun k' a' b').2.state.copies ∧
    exceptState (functionRun k x).2 = exceptState (functionRun k' x').2 := by
  subst hk; subst ha; subst hb; subst hx
  exact ⟨rfl, rfl, rfl, rfl⟩

/-- Witness for C9: the two main runs repeated at their own inputs. -/
theorem synthesis_deterministic_witness :
    (fiboRun 4 (Value.known 1) (Value.known 1)).2.state.assignments =
      (fiboRun 4 (Value.known 1) (Value.known 1)).2.state.assignments ∧
    (fiboRun 4 (Value.known 1) (Value.known 1)).2.state.enabled =
      (fiboRun 4 (Value.known 1) (Value.known 1)).2.state.enabled ∧
    (fiboRun 4 (Value.known 1) (Value.known 1)).2.state.copies =
      (fiboRun 4 (Value.known 1) (Value.known 1)).2.state.copies ∧
    exceptState (functionRun 4 (Value.known 3)).2 =
      exceptState (functionRun 4 (Value.known 3)).2 :=
  synthesis_deterministic 4 4 (Value.known 1) (Value.known 1) (Value.known 1)
    (Value.known 1) (Value.known 3) (Value.known 3) rfl rfl rfl rfl

/-- Claim C10: in both main runs every region has height exactly 1 (every
operation uses offset 0), so the rows used equal the regions opened: 8
for the Fibonacci circuit and 6 for the cubic circuit, both within the
2^4-row grid minus the 3-row blinding reserve, and synthesis succeeds. -/
theorem regions_height_one_and_fit :
    fiboMainState.regionHeights = List.replicate 8 1 ∧
    fiboMainState.nextRow = 8 ∧
    functionMainState.regionHeights = List.replicate 6 1 ∧
    functionMainState.nextRow = 6 ∧
    fiboMain.2 = SynthOutcome.ok fiboMainState ∧
    functionMain.2 = Except.ok functionMainState ∧
    8 ≤ 2 ^ 4 - 3 ∧ 6 ≤ 2 ^ 4 - 3 := by decide
